import Mathlib

/-!
Shallow embedding of the mediator-based order-form coordination engine
(`lab10_mediator.py`): six form components (date picker, time slots,
recipient checkbox, two recipient input fields, pickup checkbox) wired to a
single `OrderFormMediator` that reacts to string-tagged events.

State is modelled as one record holding every component's fields; each
Python method becomes a function `FormState → FormState × List Ev`, where
the trace records every emission to the mediator (`Ev.notify`) and every
invocation of `TimeSlots.update_available_slots` (`Ev.refresh`).
Diagnostic `print` calls in the Python code mutate nothing and are not
modelled.
-/

set_option autoImplicit false

namespace Lab10

/-- Opaque date value (mirrors `datetime.date`); the core never interprets it. -/
structure Date where
  year : Nat
  month : Nat
  day : Nat
deriving DecidableEq, Repr

/-- State of `BaseComponent` for components with no extra fields
(`DatePicker`, `TimeSlots`): just the `is_active` flag, default `True`. -/
structure BaseState where
  is_active : Bool
deriving DecidableEq, Repr

/-- State of a checkbox component (`RecipientCheckbox`, `PickupCheckbox`).
In Python, `is_checked` is set lazily on first `toggle`; the mediator reads
it via `getattr(sender, 'is_checked', False)`, so the absent attribute is
observationally `False` and is modelled as initial `false`. -/
structure CheckboxState where
  is_active : Bool
  is_checked : Bool
deriving DecidableEq, Repr

/-- State of `RecipientInput` (fields `is_visible`, `is_required`, both
initialised `False` in `__init__`, plus the inherited `is_active`). -/
structure RecipientInputState where
  is_active : Bool
  is_visible : Bool
  is_required : Bool
deriving DecidableEq, Repr

/-- The whole wired form: the six components owned by `OrderFormMediator`. -/
structure FormState where
  date_picker : BaseState
  time_slots : BaseState
  recipient_cb : CheckboxState
  name_input : RecipientInputState
  phone_input : RecipientInputState
  pickup_cb : CheckboxState
deriving DecidableEq, Repr

/-- Observable events of one execution: `notify e` is a call to
`Mediator.notify(sender, e)`; `refresh` is an invocation of
`TimeSlots.update_available_slots` (the spec's `refreshAvailability`). -/
inductive Ev where
  | notify (event : String)
  | refresh
deriving DecidableEq, Repr

/-- `getattr(sender, 'is_checked', False)`: reads the sender's
`is_checked` attribute, defaulting to `False` when absent. -/
def getattrChecked : Option Bool → Bool
  | some b => b
  | none => false

/-- `BaseComponent.set_active` (line 41): unconditionally writes `is_active`. -/
def BaseState.set_active (status : Bool) (c : BaseState) : BaseState :=
  { c with is_active := status }

/-- `BaseComponent.set_active` for checkbox components. -/
def CheckboxState.set_active (status : Bool) (c : CheckboxState) : CheckboxState :=
  { c with is_active := status }

/-- `BaseComponent.set_active` for `RecipientInput` components. -/
def RecipientInputState.set_active (status : Bool) (c : RecipientInputState) :
    RecipientInputState :=
  { c with is_active := status }

/-- `RecipientInput.set_visibility` (line 109): ungated setter of `is_visible`. -/
def RecipientInput.set_visibility (visible : Bool) (r : RecipientInputState) :
    RecipientInputState :=
  { r with is_visible := visible }

/-- `RecipientInput.set_required` (line 114): ungated setter of `is_required`. -/
def RecipientInput.set_required (required : Bool) (r : RecipientInputState) :
    RecipientInputState :=
  { r with is_required := required }

/-- `TimeSlots.update_available_slots` (line 74): returns early when
inactive, otherwise only prints; either way it mutates nothing. The trace
records the invocation itself. -/
def TimeSlots.update_available_slots (s : FormState) : FormState × List Ev :=
  (s, [Ev.refresh])

/-- `OrderFormMediator.notify` (line 165): dispatch on the event string.
`senderChecked` is the sender's `is_checked` attribute as `getattr` sees it
(`none` when the sender has no such attribute). -/
def OrderFormMediator.notify (senderChecked : Option Bool) (event : String)
    (s : FormState) : FormState × List Ev :=
  if event = "date_changed" then
    TimeSlots.update_available_slots s
  else if event = "recipient_checkbox_toggled" then
    let is_checked := getattrChecked senderChecked
    let s := { s with name_input := RecipientInput.set_required is_checked (RecipientInput.set_visibility is_checked s.name_input) }
    let s := { s with phone_input := RecipientInput.set_required is_checked (RecipientInput.set_visibility is_checked s.phone_input) }
    (s, [])
  else if event = "pickup_toggled" then
    let is_pickup := getattrChecked senderChecked
    let delivery_active := !is_pickup
    let s := { s with
      date_picker := BaseState.set_active delivery_active s.date_picker,
      time_slots := BaseState.set_active delivery_active s.time_slots,
      recipient_cb := CheckboxState.set_active delivery_active s.recipient_cb }
    if is_pickup then
      ({ s with
          name_input := RecipientInput.set_visibility false s.name_input,
          phone_input := RecipientInput.set_visibility false s.phone_input }, [])
    else
      (s, [])
  else
    (s, [])

/-- `DatePicker.select_date` (line 59): no-op when inactive; otherwise
emits `date_changed` to the mediator. The date is only printed, never stored. -/
def DatePicker.select_date (_selected_date : Date) (s : FormState) :
    FormState × List Ev :=
  if !s.date_picker.is_active then
    (s, [])
  else
    let r := OrderFormMediator.notify none "date_changed" s
    (r.1, Ev.notify "date_changed" :: r.2)

/-- `RecipientCheckbox.toggle` (line 86): no-op when inactive; otherwise
writes `is_checked` first, then emits `recipient_checkbox_toggled`, so the
mediator's `getattr` read sees the new value. -/
def RecipientCheckbox.toggle (is_checked : Bool) (s : FormState) :
    FormState × List Ev :=
  if !s.recipient_cb.is_active then
    (s, [])
  else
    let s := { s with recipient_cb := { s.recipient_cb with is_checked := is_checked } }
    let r := OrderFormMediator.notify (some s.recipient_cb.is_checked)
      "recipient_checkbox_toggled" s
    (r.1, Ev.notify "recipient_checkbox_toggled" :: r.2)

/-- `PickupCheckbox.toggle` (line 125): NOT gated by `is_active`; always
writes `is_checked` then emits `pickup_toggled`. -/
def PickupCheckbox.toggle (is_checked : Bool) (s : FormState) :
    FormState × List Ev :=
  let s := { s with pickup_cb := { s.pickup_cb with is_checked := is_checked } }
  let r := OrderFormMediator.notify (some s.pickup_cb.is_checked) "pickup_toggled" s
  (r.1, Ev.notify "pickup_toggled" :: r.2)

/-- The state right after construction and two-phase wiring (`__main__`
construction and `OrderFormMediator.__init__`): every component active,
checkboxes unchecked, both input fields hidden and optional. -/
def initial_state : FormState :=
  { date_picker := { is_active := true }
    time_slots := { is_active := true }
    recipient_cb := { is_active := true, is_checked := false }
    name_input := { is_active := true, is_visible := false, is_required := false }
    phone_input := { is_active := true, is_visible := false, is_required := false }
    pickup_cb := { is_active := true, is_checked := false } }

/-- The public operations of the form session (spec section 6): per
component, the action methods of section 4. -/
inductive FormOp where
  | selectDate (d : Date)
  | refreshSlots
  | recipientToggle (v : Bool)
  | pickupToggle (v : Bool)
  | nameSetVisibility (v : Bool)
  | nameSetRequired (v : Bool)
  | phoneSetVisibility (v : Bool)
  | phoneSetRequired (v : Bool)
  | datePickerSetActive (v : Bool)
  | timeSlotsSetActive (v : Bool)
  | recipientCbSetActive (v : Bool)
  | nameSetActive (v : Bool)
  | phoneSetActive (v : Bool)
  | pickupSetActive (v : Bool)
deriving DecidableEq, Repr

/-- Dispatch of a public operation to the component method it names. -/
def FormOp.apply : FormOp → FormState → FormState × List Ev
  | .selectDate d, s => DatePicker.select_date d s
  | .refreshSlots, s => TimeSlots.update_available_slots s
  | .recipientToggle v, s => RecipientCheckbox.toggle v s
  | .pickupToggle v, s => PickupCheckbox.toggle v s
  | .nameSetVisibility v, s =>
      ({ s with name_input := RecipientInput.set_visibility v s.name_input }, [])
  | .nameSetRequired v, s =>
      ({ s with name_input := RecipientInput.set_required v s.name_input }, [])
  | .phoneSetVisibility v, s =>
      ({ s with phone_input := RecipientInput.set_visibility v s.phone_input }, [])
  | .phoneSetRequired v, s =>
      ({ s with phone_input := RecipientInput.set_required v s.phone_input }, [])
  | .datePickerSetActive v, s =>
      ({ s with date_picker := BaseState.set_active v s.date_picker }, [])
  | .timeSlotsSetActive v, s =>
      ({ s with time_slots := BaseState.set_active v s.time_slots }, [])
  | .recipientCbSetActive v, s =>
      ({ s with recipient_cb := CheckboxState.set_active v s.recipient_cb }, [])
  | .nameSetActive v, s =>
      ({ s with name_input := RecipientInputState.set_active v s.name_input }, [])
  | .phoneSetActive v, s =>
      ({ s with phone_input := RecipientInputState.set_active v s.phone_input }, [])
  | .pickupSetActive v, s =>
      ({ s with pickup_cb := CheckboxState.set_active v s.pickup_cb }, [])

/-- Run a sequence of public operations, keeping only the final state. -/
def runOps (ops : List FormOp) (s : FormState) : FormState :=
  ops.foldl (fun t op => (FormOp.apply op t).1) s

/-- A state the wired form can reach by some sequence of public operations
starting from the freshly constructed form. -/
def Reachable (s : FormState) : Prop :=
  ∃ ops : List FormOp, runOps ops initial_state = s

/-- Number of mediator notifications in a trace. -/
def countNotify (t : List Ev) : Nat :=
  t.countP fun e => match e with
    | Ev.notify _ => true
    | Ev.refresh => false

/-- Spec invariant 2: pickup checked forces the three delivery components
inactive. -/
def Inv2 (s : FormState) : Prop :=
  s.pickup_cb.is_checked = true →
    s.date_picker.is_active = false ∧ s.time_slots.is_active = false ∧
      s.recipient_cb.is_active = false

/-- Spec invariant 3: the recipient checkbox state determines both input
fields' visibility and requiredness. -/
def Inv3 (s : FormState) : Prop :=
  (s.recipient_cb.is_checked = true →
    s.name_input.is_visible = true ∧ s.name_input.is_required = true ∧
      s.phone_input.is_visible = true ∧ s.phone_input.is_required = true) ∧
  (s.recipient_cb.is_checked = false →
    s.name_input.is_visible = false ∧ s.name_input.is_required = false ∧
      s.phone_input.is_visible = false ∧ s.phone_input.is_required = false)

instance : DecidablePred Inv2 := fun s => by unfold Inv2; infer_instance

instance : DecidablePred Inv3 := fun s => by unfold Inv3; infer_instance

/-- A form state in which every component has been deactivated via
`set_active(false)`; used to exercise the inactive-component behaviour. -/
def all_inactive_state : FormState :=
  { date_picker := { is_active := false }
    time_slots := { is_active := false }
    recipient_cb := { is_active := false, is_checked := false }
    name_input := { is_active := false, is_visible := false, is_required := false }
    phone_input := { is_active := false, is_visible := false, is_required := false }
    pickup_cb := { is_active := false, is_checked := false } }

/-- C3: for every prior state of the wired form, after
`PickupToggle.setChecked(true)` completes, the date picker, the time-slot
list and the recipient checkbox are all inactive and both recipient input
fields are hidden. -/
theorem pickup_true_deactivates_delivery (s : FormState) :
    (PickupCheckbox.toggle true s).1.date_picker.is_active = false ∧
    (PickupCheckbox.toggle true s).1.time_slots.is_active = false ∧
    (PickupCheckbox.toggle true s).1.recipient_cb.is_active = false ∧
    (PickupCheckbox.toggle true s).1.name_input.is_visible = false ∧
    (PickupCheckbox.toggle true s).1.phone_input.is_visible = false := by
  simp [PickupCheckbox.toggle, OrderFormMediator.notify, getattrChecked,
    BaseState.set_active, CheckboxState.set_active, RecipientInput.set_visibility]

/-- C4: for every prior state of the wired form,
`PickupToggle.setChecked(true)` followed by `PickupToggle.setChecked(false)`
leaves the date picker, the time-slot list and the recipient checkbox
active again: the pickup transition is reversible. -/
theorem pickup_round_trip (s : FormState) :
    (PickupCheckbox.toggle false (PickupCheckbox.toggle true s).1).1.date_picker.is_active = true ∧
    (PickupCheckbox.toggle false (PickupCheckbox.toggle true s).1).1.time_slots.is_active = true ∧
    (PickupCheckbox.toggle false (PickupCheckbox.toggle true s).1).1.recipient_cb.is_active = true := by
  simp [PickupCheckbox.toggle, OrderFormMediator.notify, getattrChecked,
    BaseState.set_active, CheckboxState.set_active, RecipientInput.set_visibility]

/-- C5: for every boolean `v`, toggling the recipient checkbox to `v` while
it is active writes `is_checked := v` before notifying, and the mediator
handler therefore ends with both recipient fields having
`is_visible = is_required = v`. -/
theorem recipient_toggle_sets_fields (s : FormState) (v : Bool)
    (h : s.recipient_cb.is_active = true) :
    (RecipientCheckbox.toggle v s).1.recipient_cb.is_checked = v ∧
    (RecipientCheckbox.toggle v s).1.name_input.is_visible = v ∧
    (RecipientCheckbox.toggle v s).1.name_input.is_required = v ∧
    (RecipientCheckbox.toggle v s).1.phone_input.is_visible = v ∧
    (RecipientCheckbox.toggle v s).1.phone_input.is_required = v := by
  simp [RecipientCheckbox.toggle, OrderFormMediator.notify, getattrChecked,
    RecipientInput.set_visibility, RecipientInput.set_required, h]

/-- C5 witness at `v = true` from the freshly constructed form. -/
theorem recipient_toggle_sets_fields_witness :
    (RecipientCheckbox.toggle true initial_state).1.recipient_cb.is_checked = true ∧
    (RecipientCheckbox.toggle true initial_state).1.name_input.is_visible = true ∧
    (RecipientCheckbox.toggle true initial_state).1.name_input.is_required = true ∧
    (RecipientCheckbox.toggle true initial_state).1.phone_input.is_visible = true ∧
    (RecipientCheckbox.toggle true initial_state).1.phone_input.is_required = true :=
  recipient_toggle_sets_fields initial_state true (by decide)

/-- C6: selecting a date while the date picker is active produces exactly
one invocation of `update_available_slots` and exactly one mediator
notification; selecting while inactive changes nothing and emits nothing. -/
theorem select_date_refresh (s : FormState) (d : Date) :
    (s.date_picker.is_active = true →
      (DatePicker.select_date d s).2.count Ev.refresh = 1 ∧
      countNotify (DatePicker.select_date d s).2 = 1) ∧
    (s.date_picker.is_active = false →
      DatePicker.select_date d s = (s, [])) := by
  constructor <;> intro h <;>
    simp [DatePicker.select_date, OrderFormMediator.notify,
      TimeSlots.update_available_slots, countNotify, h]

/-- C6 witness: the active branch on the fresh form with the date of
scenario A, and the inactive branch on the fully deactivated form. -/
theorem select_date_refresh_witness :
    (DatePicker.select_date (Date.mk 2025 10 20) initial_state).2.count Ev.refresh = 1 ∧
    DatePicker.select_date (Date.mk 2025 10 25) all_inactive_state = (all_inactive_state, []) :=
  ⟨((select_date_refresh initial_state (Date.mk 2025 10 20)).1 (by decide)).1,
   (select_date_refresh all_inactive_state (Date.mk 2025 10 25)).2 (by decide)⟩

/-- C8: for every sender and every event string outside the closed set of
the three handled kinds, `OrderFormMediator.notify` leaves the state
unchanged and produces no observable effect. -/
theorem notify_unknown_noop (senderChecked : Option Bool) (event : String)
    (s : FormState) (h1 : event ≠ "date_changed")
    (h2 : event ≠ "recipient_checkbox_toggled")
    (h3 : event ≠ "pickup_toggled") :
    OrderFormMediator.notify senderChecked event s = (s, []) := by
  simp [OrderFormMediator.notify, h1, h2, h3]

/-- C8 witness at the unrecognized event string "slot_refreshed". -/
theorem notify_unknown_noop_witness :
    OrderFormMediator.notify (some true) "slot_refreshed" initial_state
      = (initial_state, []) :=
  notify_unknown_noop (some true) "slot_refreshed" initial_state
    (by decide) (by decide) (by decide)

/-- C9: every public operation, from every state, produces a trace holding
at most one mediator notification: no handler re-enters `notify`. -/
theorem at_most_one_notify (op : FormOp) (s : FormState) :
    countNotify (FormOp.apply op s).2 ≤ 1 := by
  cases op with
  | selectDate d =>
      cases h : s.date_picker.is_active <;>
        simp [FormOp.apply, DatePicker.select_date, OrderFormMediator.notify,
          TimeSlots.update_available_slots, countNotify, h]
  | recipientToggle v =>
      cases h : s.recipient_cb.is_active <;>
        simp [FormOp.apply, RecipientCheckbox.toggle, OrderFormMediator.notify,
          getattrChecked, RecipientInput.set_visibility,
          RecipientInput.set_required, countNotify, h]
  | pickupToggle v =>
      cases v <;>
        simp [FormOp.apply, PickupCheckbox.toggle, OrderFormMediator.notify,
          getattrChecked, BaseState.set_active, CheckboxState.set_active,
          RecipientInput.set_visibility, countNotify]
  | _ =>
      simp [FormOp.apply, TimeSlots.update_available_slots, countNotify]

/-- C10: the `RecipientInput` setters are not gated by `is_active`: even
with both input fields deactivated, `set_visibility` and `set_required`
still write the requested flag and emit nothing. -/
theorem field_setters_not_gated (s : FormState) (v : Bool)
    (h1 : s.name_input.is_active = false)
    (h2 : s.phone_input.is_active = false) :
    (FormOp.apply (FormOp.nameSetVisibility v) s).1.name_input.is_visible = v ∧
    (FormOp.apply (FormOp.nameSetRequired v) s).1.name_input.is_required = v ∧
    (FormOp.apply (FormOp.phoneSetVisibility v) s).1.phone_input.is_visible = v ∧
    (FormOp.apply (FormOp.phoneSetRequired v) s).1.phone_input.is_required = v ∧
    (FormOp.apply (FormOp.nameSetVisibility v) s).2 = [] ∧
    (FormOp.apply (FormOp.phoneSetVisibility v) s).2 = [] := by
  simp [FormOp.apply, RecipientInput.set_visibility, RecipientInput.set_required]

/-- C10 witness on the fully deactivated form at `v = true`. -/
theorem field_setters_not_gated_witness :
    (FormOp.apply (FormOp.nameSetVisibility true) all_inactive_state).1.name_input.is_visible = true ∧
    (FormOp.apply (FormOp.nameSetRequired true) all_inactive_state).1.name_input.is_required = true ∧
    (FormOp.apply (FormOp.phoneSetVisibility true) all_inactive_state).1.phone_input.is_visible = true ∧
    (FormOp.apply (FormOp.phoneSetRequired true) all_inactive_state).1.phone_input.is_required = true ∧
    (FormOp.apply (FormOp.nameSetVisibility true) all_inactive_state).2 = [] ∧
    (FormOp.apply (FormOp.phoneSetVisibility true) all_inactive_state).2 = [] :=
  field_setters_not_gated all_inactive_state true (by decide) (by decide)

/-- C2 counterexample: `PickupCheckbox.toggle` is not gated by
`is_active`. On the fully deactivated form, `toggle(true)` both changes
the state and emits a `pickup_toggled` notification, so it is not the case
that after `set_active(false)` every state-changing operation of every
component is a silent no-op. -/
theorem inactivity_counterexample :
    (PickupCheckbox.toggle true all_inactive_state).1 ≠ all_inactive_state ∧
    countNotify (PickupCheckbox.toggle true all_inactive_state).2 = 1 := by
  decide

/-- C2 amended: after `set_active(false)`, the event-emitting gated
operations are silent no-ops: `DatePicker.select_date` and
`RecipientCheckbox.toggle` return the state unchanged with an empty trace,
and `TimeSlots.update_available_slots` never changes state or notifies.
(`PickupCheckbox.toggle` and the `RecipientInput` setters are not gated.) -/
theorem gated_ops_inactive_noop (s : FormState) (d : Date) (v : Bool)
    (h1 : s.date_picker.is_active = false)
    (h2 : s.recipient_cb.is_active = false) :
    DatePicker.select_date d s = (s, []) ∧
    RecipientCheckbox.toggle v s = (s, []) ∧
    (TimeSlots.update_available_slots s).1 = s ∧
    countNotify (TimeSlots.update_available_slots s).2 = 0 := by
  refine ⟨?_, ?_, rfl, ?_⟩
  · simp [DatePicker.select_date, h1]
  · simp [RecipientCheckbox.toggle, h2]
  · simp [TimeSlots.update_available_slots, countNotify]

/-- C2 witness on the fully deactivated form. -/
theorem gated_ops_inactive_noop_witness :
    DatePicker.select_date (Date.mk 2025 10 20) all_inactive_state
      = (all_inactive_state, []) ∧
    RecipientCheckbox.toggle true all_inactive_state = (all_inactive_state, []) ∧
    (TimeSlots.update_available_slots all_inactive_state).1 = all_inactive_state ∧
    countNotify (TimeSlots.update_available_slots all_inactive_state).2 = 0 :=
  gated_ops_inactive_noop all_inactive_state (Date.mk 2025 10 20) true
    (by decide) (by decide)

/-- Public operations that preserve spec invariant 3: everything except
`PickupToggle.setChecked(true)` (which hides the fields while leaving the
recipient checkbox checked) and the direct `RecipientInput` setters. -/
def SafeOp3 : FormOp → Bool
  | FormOp.pickupToggle true => false
  | FormOp.nameSetVisibility _ => false
  | FormOp.nameSetRequired _ => false
  | FormOp.phoneSetVisibility _ => false
  | FormOp.phoneSetRequired _ => false
  | _ => true

/-- One step of any `SafeOp3` operation preserves invariant 3. -/
theorem inv3_step (op : FormOp) (s : FormState) (hop : SafeOp3 op = true)
    (h : Inv3 s) : Inv3 (FormOp.apply op s).1 := by
  cases op with
  | selectDate d =>
      cases hc : s.date_picker.is_active <;>
        simpa [FormOp.apply, DatePicker.select_date, OrderFormMediator.notify,
          TimeSlots.update_available_slots, Inv3, hc] using h
  | refreshSlots =>
      simpa [FormOp.apply, TimeSlots.update_available_slots, Inv3] using h
  | recipientToggle v =>
      cases hc : s.recipient_cb.is_active
      · simpa [FormOp.apply, RecipientCheckbox.toggle, Inv3, hc] using h
      · cases v <;>
          simp [FormOp.apply, RecipientCheckbox.toggle, OrderFormMediator.notify,
            getattrChecked, RecipientInput.set_visibility,
            RecipientInput.set_required, Inv3, hc]
  | pickupToggle v =>
      cases v
      · simpa [FormOp.apply, PickupCheckbox.toggle, OrderFormMediator.notify,
          getattrChecked, BaseState.set_active, CheckboxState.set_active,
          Inv3] using h
      · simp [SafeOp3] at hop
  | nameSetVisibility v => simp [SafeOp3] at hop
  | nameSetRequired v => simp [SafeOp3] at hop
  | phoneSetVisibility v => simp [SafeOp3] at hop
  | phoneSetRequired v => simp [SafeOp3] at hop
  | datePickerSetActive v =>
      simpa [FormOp.apply, BaseState.set_active, Inv3] using h
  | timeSlotsSetActive v =>
      simpa [FormOp.apply, BaseState.set_active, Inv3] using h
  | recipientCbSetActive v =>
      simpa [FormOp.apply, CheckboxState.set_active, Inv3] using h
  | nameSetActive v =>
      simpa [FormOp.apply, RecipientInputState.set_active, Inv3] using h
  | phoneSetActive v =>
      simpa [FormOp.apply, RecipientInputState.set_active, Inv3] using h
  | pickupSetActive v =>
      simpa [FormOp.apply, CheckboxState.set_active, Inv3] using h

/-- C1 counterexample: invariant 3 does NOT hold over all states reachable
by public operations. Checking the recipient toggle and then enabling
pickup hides both fields while the recipient checkbox stays checked (the
latent inconsistency of spec section 9). -/
theorem inv3_reachable_counterexample :
    ¬ (∀ s : FormState, Reachable s → Inv3 s) := by
  intro hall
  exact absurd
    (hall (runOps [FormOp.recipientToggle true, FormOp.pickupToggle true] initial_state)
      ⟨[FormOp.recipientToggle true, FormOp.pickupToggle true], rfl⟩)
    (by decide)

/-- C1 amended: invariant 3 holds after every sequence of public
operations that avoids `PickupToggle.setChecked(true)` and the direct
`RecipientInput.set_visibility` / `set_required` calls. -/
theorem inv3_restricted_ops (ops : List FormOp)
    (h : ∀ op ∈ ops, SafeOp3 op = true) :
    Inv3 (runOps ops initial_state) := by
  suffices H : ∀ (l : List FormOp) (s : FormState),
      (∀ op ∈ l, SafeOp3 op = true) → Inv3 s → Inv3 (runOps l s) by
    exact H ops initial_state h (by decide)
  intro l
  induction l with
  | nil => intro s _ hs; exact hs
  | cons op rest ih =>
      intro s hall hs
      exact ih (FormOp.apply op s).1
        (fun o ho => hall o (List.mem_cons_of_mem op ho))
        (inv3_step op s (hall op (List.mem_cons_self op rest)) hs)

/-- C1 witness: a concrete safe sequence ending in a checked state. -/
theorem inv3_restricted_ops_witness :
    Inv3 (runOps [FormOp.recipientToggle true] initial_state) :=
  inv3_restricted_ops [FormOp.recipientToggle true] (by decide)

/-- Public operations that preserve spec invariant 2: everything except
direct `set_active` calls on the three delivery components. -/
def SafeOp2 : FormOp → Bool
  | FormOp.datePickerSetActive _ => false
  | FormOp.timeSlotsSetActive _ => false
  | FormOp.recipientCbSetActive _ => false
  | _ => true

/-- One step of any `SafeOp2` operation preserves invariant 2. -/
theorem inv2_step (op : FormOp) (s : FormState) (hop : SafeOp2 op = true)
    (h : Inv2 s) : Inv2 (FormOp.apply op s).1 := by
  cases op with
  | selectDate d =>
      cases hc : s.date_picker.is_active <;>
        simpa [FormOp.apply, DatePicker.select_date, OrderFormMediator.notify,
          TimeSlots.update_available_slots, Inv2, hc] using h
  | refreshSlots =>
      simpa [FormOp.apply, TimeSlots.update_available_slots, Inv2] using h
  | recipientToggle v =>
      cases hc : s.recipient_cb.is_active
      · simpa [FormOp.apply, RecipientCheckbox.toggle, Inv2, hc] using h
      · simpa [FormOp.apply, RecipientCheckbox.toggle, OrderFormMediator.notify,
          getattrChecked, RecipientInput.set_visibility,
          RecipientInput.set_required, Inv2, hc] using h
  | pickupToggle v =>
      cases v <;>
        simp [FormOp.apply, PickupCheckbox.toggle, OrderFormMediator.notify,
          getattrChecked, BaseState.set_active, CheckboxState.set_active,
          RecipientInput.set_visibility, Inv2]
  | nameSetVisibility v =>
      simpa [FormOp.apply, RecipientInput.set_visibility, Inv2] using h
  | nameSetRequired v =>
      simpa [FormOp.apply, RecipientInput.set_required, Inv2] using h
  | phoneSetVisibility v =>
      simpa [FormOp.apply, RecipientInput.set_visibility, Inv2] using h
  | phoneSetRequired v =>
      simpa [FormOp.apply, RecipientInput.set_required, Inv2] using h
  | datePickerSetActive v => simp [SafeOp2] at hop
  | timeSlotsSetActive v => simp [SafeOp2] at hop
  | recipientCbSetActive v => simp [SafeOp2] at hop
  | nameSetActive v =>
      simpa [FormOp.apply, RecipientInputState.set_active, Inv2] using h
  | phoneSetActive v =>
      simpa [FormOp.apply, RecipientInputState.set_active, Inv2] using h
  | pickupSetActive v =>
      simpa [FormOp.apply, CheckboxState.set_active, Inv2] using h

/-- C7 counterexample: invariant 2 does NOT hold over all states reachable
by public operations once `set_active` is included: enabling pickup and
then calling `set_active(true)` on the date picker leaves pickup checked
with an active date picker. -/
theorem inv2_reachable_counterexample :
    ¬ (∀ s : FormState, Reachable s → Inv2 s) := by
  intro hall
  exact absurd
    (hall (runOps [FormOp.pickupToggle true, FormOp.datePickerSetActive true] initial_state)
      ⟨[FormOp.pickupToggle true, FormOp.datePickerSetActive true], rfl⟩)
    (by decide)

/-- C7 amended: invariant 2 holds after every sequence of public
operations that avoids direct `set_active` calls on the date picker, the
time-slot list and the recipient checkbox. -/
theorem inv2_restricted_ops (ops : List FormOp)
    (h : ∀ op ∈ ops, SafeOp2 op = true) :
    Inv2 (runOps ops initial_state) := by
  suffices H : ∀ (l : List FormOp) (s : FormState),
      (∀ op ∈ l, SafeOp2 op = true) → Inv2 s → Inv2 (runOps l s) by
    exact H ops initial_state h (by decide)
  intro l
  induction l with
  | nil => intro s _ hs; exact hs
  | cons op rest ih =>
      intro s hall hs
      exact ih (FormOp.apply op s).1
        (fun o ho => hall o (List.mem_cons_of_mem op ho))
        (inv2_step op s (hall op (List.mem_cons_self op rest)) hs)

/-- C7 witness: a concrete safe sequence ending with pickup checked. -/
theorem inv2_restricted_ops_witness :
    Inv2 (runOps [FormOp.pickupToggle true] initial_state) :=
  inv2_restricted_ops [FormOp.pickupToggle true] (by decide)

end Lab10
